import Mathlib

/-
  Verification development for the GPIO subsystem of python-periphery.

  The definitions below are a shallow embedding of src/periphery/gpio.py
  (classes CdevGPIO, SysfsGPIO and the static method GPIO.poll_multiple).
  Python object attributes become fields of explicit state structures;
  every OS interaction (os.close, ioctl, os.write, lseek, select.poll
  registration and wait) is recorded as an element of an effect trace, and
  the outcome of each fallible OS call is supplied by an oracle argument.
  A raised Python exception is modelled by the err field of a step result;
  as in Python, attribute mutations performed before the raise persist in
  the returned state.
-/

namespace Periphery

/-- GPIO direction values: "in", "out", "high", "low" in the source. -/
inductive Direction
  | input
  | output
  | high
  | low
  deriving DecidableEq, Repr

/-- GPIO edge values: "none", "rising", "falling", "both" in the source. -/
inductive Edge
  | none
  | rising
  | falling
  | both
  deriving DecidableEq, Repr

/-- GPIO bias values: "default", "pull_up", "pull_down", "disable". -/
inductive Bias
  | default
  | pullUp
  | pullDown
  | disable
  deriving DecidableEq, Repr

/-- GPIO drive values: "default", "open_drain", "open_source". -/
inductive Drive
  | default
  | openDrain
  | openSource
  deriving DecidableEq, Repr

/-- Python exception kinds raised by the GPIO module. -/
inductive PyError
  | gpioError (errno : Option Int) (msg : String)
  | typeError (msg : String)
  | valueError (msg : String)
  | lookupError (msg : String)
  | timeoutError (msg : String)
  | keyError (msg : String)
  deriving DecidableEq, Repr

/-- Linux poll event mask bits as exposed by the Python select module. -/
def POLLIN : Nat := 0x1

def POLLPRI : Nat := 0x2

def POLLERR : Nat := 0x8

def POLLRDNORM : Nat := 0x40

/-- Trace of OS-level operations performed by a GPIO method. -/
inductive Effect
  | closeFd (fd : Nat)
  | openChip
  | ioctlChipInfo (fd : Nat)
  | ioctlLineInfo (fd : Nat) (offset : Nat)
  | ioctlLineHandle (offset : Nat) (flags : Nat) (defaultValue : Bool)
  | ioctlLineEvent (offset : Nat) (handleflags : Nat) (eventflags : Nat)
  | ioctlGetValues
  | ioctlSetValues (value : Bool)
  | readFd (fd : Nat)
  | registerFd (fd : Nat) (mask : Nat)
  | pollWait (timeout : Option Rat)
  | lseekZero (fd : Nat)
  | writeValue (fd : Nat) (value : Bool)
  | writeAttr (attr : String) (data : String)
  deriving DecidableEq, Repr

/-- Effects that read or consume line data or a pending edge event. -/
def isReadEffect : Effect → Bool
  | Effect.readFd _ => true
  | Effect.ioctlGetValues => true
  | _ => false

/-- Scaling applied to a poll timeout before it is handed to select.poll:
a positive timeout in seconds is multiplied by 1000; zero, negative and
absent timeouts are passed through unchanged. -/
def scaleTimeout (t : Option Rat) : Option Rat :=
  match t with
  | Option.none => Option.none
  | Option.some v => if 0 < v then Option.some (v * 1000) else Option.some v

namespace CdevGPIOModel

/-- Constants scraped from linux/gpio.h, as in the source. -/
def GPIOHANDLE_REQUEST_INPUT : Nat := 0x1

def GPIOHANDLE_REQUEST_OUTPUT : Nat := 0x2

def GPIOHANDLE_REQUEST_ACTIVE_LOW : Nat := 0x4

def GPIOHANDLE_REQUEST_OPEN_DRAIN : Nat := 0x8

def GPIOHANDLE_REQUEST_OPEN_SOURCE : Nat := 0x10

def GPIOHANDLE_REQUEST_BIAS_PULL_UP : Nat := 0x20

def GPIOHANDLE_REQUEST_BIAS_PULL_DOWN : Nat := 0x40

def GPIOHANDLE_REQUEST_BIAS_DISABLE : Nat := 0x80

def GPIOEVENT_REQUEST_RISING_EDGE : Nat := 0x1

def GPIOEVENT_REQUEST_FALLING_EDGE : Nat := 0x2

def GPIOEVENT_REQUEST_BOTH_EDGES : Nat := 0x3

/-- State of a CdevGPIO session: the mutable attributes of the Python
object (line number, line and chip file descriptors, and the cached
configuration). -/
structure State where
  line : Option Nat
  lineFd : Option Nat
  chipFd : Option Nat
  direction : Direction
  edge : Edge
  bias : Bias
  drive : Drive
  inverted : Bool
  deriving DecidableEq, Repr

/-- Result of one CdevGPIO method call: the state after the call, the
trace of OS operations it performed, and the exception it raised, if any. -/
structure Step where
  state : State
  trace : List Effect
  err : Option PyError
  deriving DecidableEq, Repr

/-- Outcomes of the OS calls made by a reopen cycle. -/
structure ReopenOracle where
  closeOk : Bool
  closeErrno : Int
  closeStrerror : String
  requestFd : Option Nat
  requestErrno : Int
  requestStrerror : String

/-- Bias, drive and inverted contributions to the v1 request flags. -/
def requestFlags (bias : Bias) (drive : Drive) (inverted : Bool) : Nat :=
  (match bias with
    | Bias.pullUp => GPIOHANDLE_REQUEST_BIAS_PULL_UP
    | Bias.pullDown => GPIOHANDLE_REQUEST_BIAS_PULL_DOWN
    | Bias.disable => GPIOHANDLE_REQUEST_BIAS_DISABLE
    | Bias.default => 0) |||
  (match drive with
    | Drive.openDrain => GPIOHANDLE_REQUEST_OPEN_DRAIN
    | Drive.openSource => GPIOHANDLE_REQUEST_OPEN_SOURCE
    | Drive.default => 0) |||
  (if inverted then GPIOHANDLE_REQUEST_ACTIVE_LOW else 0)

/-- Event flags computed by the conditional expression in the source:
rising, falling, otherwise both edges. -/
def eventFlags (edge : Edge) : Nat :=
  match edge with
  | Edge.rising => GPIOEVENT_REQUEST_RISING_EDGE
  | Edge.falling => GPIOEVENT_REQUEST_FALLING_EDGE
  | _ => GPIOEVENT_REQUEST_BOTH_EDGES

/-- The descriptive message of the unsupported-bias error, naming the
host kernel version. -/
def biasErrMsg (kernelVersion : Nat × Nat) : String :=
  "Line bias configuration not supported by kernel version " ++
    toString kernelVersion.1 ++ "." ++ toString kernelVersion.2 ++ "."

/-- The line request issued by the second half of a reopen cycle, on a
state whose line descriptor has already been closed and cleared.
On success the new line descriptor and the full cached configuration are
stored; on ioctl failure the exception propagates with the state as is. -/
def reopenRequest (o : ReopenOracle) (s : State) (direction : Direction)
    (edge : Edge) (bias : Bias) (drive : Drive) (inverted : Bool)
    (flags : Nat) : Step :=
  let offset := s.line.getD 0
  let success : Effect → Nat → Step := fun eff fd =>
    { state := { s with
        lineFd := Option.some fd,
        direction := if direction = Direction.input then Direction.input else Direction.output,
        edge := edge, bias := bias, drive := drive, inverted := inverted },
      trace := [eff], err := Option.none }
  if direction = Direction.input then
    if edge = Edge.none then
      let eff := Effect.ioctlLineHandle offset (flags ||| GPIOHANDLE_REQUEST_INPUT) false
      match o.requestFd with
      | Option.some fd => success eff fd
      | Option.none =>
          { state := s, trace := [eff],
            err := Option.some (PyError.gpioError (Option.some o.requestErrno)
              ("Opening input line handle: " ++ o.requestStrerror)) }
    else
      let eff := Effect.ioctlLineEvent offset (flags ||| GPIOHANDLE_REQUEST_INPUT) (eventFlags edge)
      match o.requestFd with
      | Option.some fd => success eff fd
      | Option.none =>
          { state := s, trace := [eff],
            err := Option.some (PyError.gpioError (Option.some o.requestErrno)
              ("Opening input line event handle: " ++ o.requestStrerror)) }
  else
    let initialValue := (decide (direction = Direction.high)).xor inverted
    let eff := Effect.ioctlLineHandle offset (flags ||| GPIOHANDLE_REQUEST_OUTPUT) initialValue
    match o.requestFd with
    | Option.some fd => success eff fd
    | Option.none =>
        { state := s, trace := [eff],
          err := Option.some (PyError.gpioError (Option.some o.requestErrno)
            ("Opening output line handle: " ++ o.requestStrerror)) }

/-- The reopen cycle of CdevGPIO: reject unsupported bias, close the
existing line descriptor if any, then issue the fresh line request. -/
def reopen (supportsLineBias : Bool) (kernelVersion : Nat × Nat)
    (o : ReopenOracle) (s : State) (direction : Direction) (edge : Edge)
    (bias : Bias) (drive : Drive) (inverted : Bool) : Step :=
  if bias != Bias.default && !supportsLineBias then
    { state := s, trace := [],
      err := Option.some (PyError.gpioError Option.none (biasErrMsg kernelVersion)) }
  else
    let flags := requestFlags bias drive inverted
    match s.lineFd with
    | Option.some fd =>
        if o.closeOk then
          let r := reopenRequest o { s with lineFd := Option.none } direction edge bias drive inverted flags
          { r with trace := Effect.closeFd fd :: r.trace }
        else
          { state := s, trace := [Effect.closeFd fd],
            err := Option.some (PyError.gpioError (Option.some o.closeErrno)
              ("Closing existing GPIO line: " ++ o.closeStrerror)) }
    | Option.none =>
        reopenRequest o s direction edge bias drive inverted flags

/-- The direction property setter: no-op when unchanged, otherwise a
reopen with edge "none". -/
def setDirection (supportsLineBias : Bool) (kernelVersion : Nat × Nat)
    (o : ReopenOracle) (s : State) (direction : Direction) : Step :=
  if s.direction = direction then
    { state := s, trace := [], err := Option.none }
  else
    reopen supportsLineBias kernelVersion o s direction Edge.none s.bias s.drive s.inverted

/-- The edge property setter: rejects any assignment while the cached
direction is not "in", then no-ops when unchanged, otherwise reopens. -/
def setEdge (supportsLineBias : Bool) (kernelVersion : Nat × Nat)
    (o : ReopenOracle) (s : State) (edge : Edge) : Step :=
  if s.direction != Direction.input then
    { state := s, trace := [],
      err := Option.some (PyError.gpioError Option.none
        "Invalid operation: cannot set edge on output GPIO") }
  else if s.edge = edge then
    { state := s, trace := [], err := Option.none }
  else
    reopen supportsLineBias kernelVersion o s s.direction edge s.bias s.drive s.inverted

/-- The bias property setter: no-op when unchanged, otherwise a reopen. -/
def setBias (supportsLineBias : Bool) (kernelVersion : Nat × Nat)
    (o : ReopenOracle) (s : State) (bias : Bias) : Step :=
  if s.bias = bias then
    { state := s, trace := [], err := Option.none }
  else
    reopen supportsLineBias kernelVersion o s s.direction s.edge bias s.drive s.inverted

/-- The drive property setter: rejects a non-default drive while the
cached direction is not "out", no-ops when unchanged, else reopens. -/
def setDrive (supportsLineBias : Bool) (kernelVersion : Nat × Nat)
    (o : ReopenOracle) (s : State) (drive : Drive) : Step :=
  if s.direction != Direction.output && drive != Drive.default then
    { state := s, trace := [],
      err := Option.some (PyError.gpioError Option.none
        "Invalid operation: cannot set line drive on input GPIO") }
  else if s.drive = drive then
    { state := s, trace := [], err := Option.none }
  else
    reopen supportsLineBias kernelVersion o s s.direction s.edge s.bias drive s.inverted

/-- The inverted property setter: no-op when unchanged, else a reopen. -/
def setInverted (supportsLineBias : Bool) (kernelVersion : Nat × Nat)
    (o : ReopenOracle) (s : State) (inverted : Bool) : Step :=
  if s.inverted = inverted then
    { state := s, trace := [], err := Option.none }
  else
    reopen supportsLineBias kernelVersion o s s.direction s.edge s.bias s.drive inverted

/-- Outcome of a single fallible OS call. -/
structure CallOracle where
  ok : Bool
  errno : Int
  strerror : String

/-- CdevGPIO.write: refuses unless the cached direction is "out", then
issues the set-line-values ioctl on the line descriptor. -/
def write (o : CallOracle) (s : State) (value : Bool) : Step :=
  if s.direction != Direction.output then
    { state := s, trace := [],
      err := Option.some (PyError.gpioError Option.none
        "Invalid operation: cannot write to input GPIO") }
  else if o.ok then
    { state := s, trace := [Effect.ioctlSetValues value], err := Option.none }
  else
    { state := s, trace := [Effect.ioctlSetValues value],
      err := Option.some (PyError.gpioError (Option.some o.errno)
        ("Setting line value: " ++ o.strerror)) }

/-- Result of a poll call: the trace, the exception if any, and the
returned boolean (meaningful only when no exception was raised). -/
structure PollStep where
  trace : List Effect
  err : Option PyError
  ret : Bool
  deriving DecidableEq, Repr

/-- CdevGPIO.poll: refuses unless the cached direction is "in", registers
the line descriptor for readable, priority and error conditions, waits
with the scaled timeout, and returns whether any event was reported.
numEvents is the number of events the wait primitive reported. -/
def poll (numEvents : Nat) (s : State) (timeout : Option Rat) : PollStep :=
  if s.direction != Direction.input then
    { trace := [],
      err := Option.some (PyError.gpioError Option.none
        "Invalid operation: cannot poll output GPIO"),
      ret := false }
  else
    { trace := [Effect.registerFd (s.lineFd.getD 0) (POLLIN ||| POLLPRI ||| POLLERR),
        Effect.pollWait (scaleTimeout timeout)],
      err := Option.none, ret := decide (0 < numEvents) }

/-- Outcomes of the two OS close calls made by CdevGPIO.close. -/
structure CloseOracle where
  lineOk : Bool
  lineErrno : Int
  lineStrerror : String
  chipOk : Bool
  chipErrno : Int
  chipStrerror : String

/-- CdevGPIO.close: closes the line descriptor if present, then the chip
descriptor if present, then clears both descriptors and resets the cached
edge to "none", the cached direction to "in" and the line number. A raise
from either OS close leaves the attributes untouched, as in the source. -/
def close (o : CloseOracle) (s : State) : Step :=
  let lineTrace : List Effect :=
    match s.lineFd with
    | Option.some fd => [Effect.closeFd fd]
    | Option.none => []
  if s.lineFd.isSome && !o.lineOk then
    { state := s, trace := lineTrace,
      err := Option.some (PyError.gpioError (Option.some o.lineErrno)
        ("Closing GPIO line: " ++ o.lineStrerror)) }
  else
    let chipTrace : List Effect :=
      match s.chipFd with
      | Option.some fd => [Effect.closeFd fd]
      | Option.none => []
    if s.chipFd.isSome && !o.chipOk then
      { state := s, trace := lineTrace ++ chipTrace,
        err := Option.some (PyError.gpioError (Option.some o.chipErrno)
          ("Closing GPIO chip: " ++ o.chipStrerror)) }
    else
      { state := { s with
          lineFd := Option.none, chipFd := Option.none,
          edge := Edge.none, direction := Direction.input,
          line := Option.none },
        trace := lineTrace ++ chipTrace, err := Option.none }

/-- Outcomes of the OS calls made by a line-by-name lookup: the chip open,
the chip-info ioctl (total line count), the per-offset line-info ioctl
(the name of each line, or a failure), and the chip close. -/
structure FindOracle where
  openFd : Option Nat
  openErrno : Int
  openStrerror : String
  chipCount : Option Nat
  chipErrno : Int
  chipStrerror : String
  lineName : Nat → Option String
  lineErrno : Int
  lineStrerror : String
  closeOk : Bool
  closeErrno : Int
  closeStrerror : String

/-- The scan loop of the line-by-name lookup, iterating over the
remaining number of offsets starting at offset i (the whole loop runs
with remaining = count and i = 0, matching the source's iteration over
offsets 0..count-1): queries line info per offset, stopping at the first
exact name match. Returns the matched offset (or none when the scan
completed without a match) together with the trace, or the wrapped I/O
error of a failed line-info query. -/
def findLoop (fd : Nat) (names : Nat → Option String) (errno : Int)
    (strerror : String) (target : String) :
    Nat → Nat → Except PyError (Option Nat) × List Effect
  | 0, _ => (Except.ok Option.none, [])
  | remaining + 1, i =>
      match names i with
      | Option.none =>
          (Except.error (PyError.gpioError (Option.some errno)
            ("Querying GPIO line info: " ++ strerror)), [Effect.ioctlLineInfo fd i])
      | Option.some nm =>
          if nm = target then
            (Except.ok (Option.some i), [Effect.ioctlLineInfo fd i])
          else
            let r := findLoop fd names errno strerror target remaining (i + 1)
            (r.1, Effect.ioctlLineInfo fd i :: r.2)

/-- CdevGPIO line resolution by name: open the chip, query the line
count, scan offsets 0..count-1 for an exact name match, close the chip,
then return the matched offset or raise a LookupError. As in the source,
a failing line-info query propagates its I/O error without reaching the
chip close. -/
def findLineByName (o : FindOracle) (target : String) :
    Except PyError Nat × List Effect :=
  match o.openFd with
  | Option.none =>
      (Except.error (PyError.gpioError (Option.some o.openErrno)
        ("Opening GPIO chip: " ++ o.openStrerror)), [Effect.openChip])
  | Option.some fd =>
      match o.chipCount with
      | Option.none =>
          (Except.error (PyError.gpioError (Option.some o.chipErrno)
            ("Querying GPIO chip info: " ++ o.chipStrerror)),
            [Effect.openChip, Effect.ioctlChipInfo fd])
      | Option.some count =>
          let scan := findLoop fd o.lineName o.lineErrno o.lineStrerror target count 0
          let before := Effect.openChip :: Effect.ioctlChipInfo fd :: scan.2
          match scan.1 with
          | Except.error e => (Except.error e, before)
          | Except.ok found =>
              if o.closeOk then
                match found with
                | Option.some i => (Except.ok i, before ++ [Effect.closeFd fd])
                | Option.none =>
                    (Except.error (PyError.lookupError
                      ("Opening GPIO line: GPIO line \"" ++ target ++ "\" not found by name.")),
                      before ++ [Effect.closeFd fd])
              else
                (Except.error (PyError.gpioError (Option.some o.closeErrno)
                  ("Closing GPIO chip: " ++ o.closeStrerror)),
                  before ++ [Effect.closeFd fd])

end CdevGPIOModel

namespace SysfsGPIOModel

/-- State of a SysfsGPIO session: the value file descriptor, the line
number, and whether this session performed the export. -/
structure State where
  fd : Option Nat
  line : Nat
  exported : Bool
  deriving DecidableEq, Repr

/-- Result of one SysfsGPIO method call. -/
structure Step where
  state : State
  trace : List Effect
  err : Option PyError
  deriving DecidableEq, Repr

/-- Textual form of a direction written to the direction attribute. -/
def directionStr : Direction → String
  | Direction.input => "in"
  | Direction.output => "out"
  | Direction.high => "high"
  | Direction.low => "low"

/-- Textual form of an edge written to the edge attribute. -/
def edgeStr : Edge → String
  | Edge.none => "none"
  | Edge.rising => "rising"
  | Edge.falling => "falling"
  | Edge.both => "both"

/-- SysfsGPIO.write: writes the value text to the kept-open value
descriptor, then rewinds it. There is no direction check in the source:
the value write is attempted regardless of the line's direction. -/
def write (o : CdevGPIOModel.CallOracle) (rewindOk : Bool) (rewindErrno : Int)
    (rewindStrerror : String) (s : State) (value : Bool) : Step :=
  let fd := s.fd.getD 0
  if !o.ok then
    { state := s, trace := [Effect.writeValue fd value],
      err := Option.some (PyError.gpioError (Option.some o.errno)
        ("Writing GPIO: " ++ o.strerror)) }
  else if !rewindOk then
    { state := s, trace := [Effect.writeValue fd value, Effect.lseekZero fd],
      err := Option.some (PyError.gpioError (Option.some rewindErrno)
        ("Rewinding GPIO: " ++ rewindStrerror)) }
  else
    { state := s, trace := [Effect.writeValue fd value, Effect.lseekZero fd],
      err := Option.none }

/-- SysfsGPIO edge property setter: writes the edge text to the edge
attribute file. There is no direction check in the source; a refusal can
come only from the kernel as a wrapped I/O error. -/
def setEdge (o : CdevGPIOModel.CallOracle) (s : State) (edge : Edge) : Step :=
  if o.ok then
    { state := s, trace := [Effect.writeAttr "edge" (edgeStr edge ++ "\n")],
      err := Option.none }
  else
    { state := s, trace := [Effect.writeAttr "edge" (edgeStr edge ++ "\n")],
      err := Option.some (PyError.gpioError (Option.some o.errno)
        ("Setting GPIO edge: " ++ o.strerror)) }

/-- SysfsGPIO direction property setter: writes the direction text to the
direction attribute file. -/
def setDirection (o : CdevGPIOModel.CallOracle) (s : State) (direction : Direction) : Step :=
  if o.ok then
    { state := s,
      trace := [Effect.writeAttr "direction" (directionStr direction ++ "\n")],
      err := Option.none }
  else
    { state := s,
      trace := [Effect.writeAttr "direction" (directionStr direction ++ "\n")],
      err := Option.some (PyError.gpioError (Option.some o.errno)
        ("Setting GPIO direction: " ++ o.strerror)) }

/-- SysfsGPIO.poll: registers the value descriptor for priority and error
conditions, waits with the scaled timeout, and on at least one reported
event rewinds the descriptor and returns true; otherwise returns false. -/
def poll (numEvents : Nat) (rewindOk : Bool) (rewindErrno : Int)
    (rewindStrerror : String) (s : State) (timeout : Option Rat) : CdevGPIOModel.PollStep :=
  let fd := s.fd.getD 0
  let waitTrace := [Effect.registerFd fd (POLLPRI ||| POLLERR),
    Effect.pollWait (scaleTimeout timeout)]
  if 0 < numEvents then
    if rewindOk then
      { trace := waitTrace ++ [Effect.lseekZero fd], err := Option.none, ret := true }
    else
      { trace := waitTrace ++ [Effect.lseekZero fd],
        err := Option.some (PyError.gpioError (Option.some rewindErrno)
          ("Rewinding GPIO: " ++ rewindStrerror)), ret := false }
  else
    { trace := waitTrace, err := Option.none, ret := false }

/-- Outcomes of the OS calls made by SysfsGPIO.close. -/
structure CloseOracle where
  closeOk : Bool
  closeErrno : Int
  closeStrerror : String
  unexportOk : Bool
  unexportErrno : Int
  unexportStrerror : String

/-- SysfsGPIO.close: an early no-op return when the descriptor is already
cleared; otherwise closes the value descriptor, clears it, and, only if
this session performed the export, writes the line number to the unexport
control file. -/
def close (o : CloseOracle) (s : State) : Step :=
  match s.fd with
  | Option.none => { state := s, trace := [], err := Option.none }
  | Option.some fd =>
      if !o.closeOk then
        { state := s, trace := [Effect.closeFd fd],
          err := Option.some (PyError.gpioError (Option.some o.closeErrno)
            ("Closing GPIO: " ++ o.closeStrerror)) }
      else
        let s1 := { s with fd := Option.none }
        if s.exported then
          let unexportEff := Effect.writeAttr "unexport" (toString s.line ++ "\n")
          if o.unexportOk then
            { state := s1, trace := [Effect.closeFd fd, unexportEff], err := Option.none }
          else
            { state := s1, trace := [Effect.closeFd fd, unexportEff],
              err := Option.some (PyError.gpioError (Option.some o.unexportErrno)
                ("Unexporting GPIO: " ++ o.unexportStrerror)) }
        else
          { state := s1, trace := [Effect.closeFd fd], err := Option.none }

/-- SysfsGPIO inverted property setter: writes "1" or "0" text to the
active_low attribute file. -/
def setInverted (o : CdevGPIOModel.CallOracle) (s : State) (inverted : Bool) : Step :=
  let eff := Effect.writeAttr "active_low" (if inverted then "1\n" else "0\n")
  if o.ok then
    { state := s, trace := [eff], err := Option.none }
  else
    { state := s, trace := [eff],
      err := Option.some (PyError.gpioError (Option.some o.errno)
        ("Setting GPIO active_low: " ++ o.strerror)) }

/-- Number of retries to check for GPIO export or direction write. -/
def GPIO_OPEN_RETRIES : Nat := 10

/-- Outcome of one attempt to write the direction attribute after an
export: success, permission denied (errno EACCES, retried), or another
I/O failure (raised immediately). -/
inductive DirWriteRes
  | ok
  | eacces (strerror : String)
  | ioerr (errno : Int) (strerror : String)

/-- The bounded direction-write retry loop run after this session
exported the line, iterating over the remaining number of attempts with
i the current attempt index (the whole loop runs with remaining set to
the retry budget and i = 0): attempt i writes the direction attribute;
EACCES is retried up to the retry budget, raising on the final attempt;
any other failure raises immediately. -/
def dirWriteLoop (f : Nat → DirWriteRes) (direction : Direction) :
    Nat → Nat → Option PyError × List Effect
  | 0, _ => (Option.none, [])
  | remaining + 1, i =>
      let eff := Effect.writeAttr "direction" (directionStr direction ++ "\n")
      match f i with
      | DirWriteRes.ok => (Option.none, [eff])
      | DirWriteRes.eacces strerror =>
          if i = GPIO_OPEN_RETRIES - 1 then
            (Option.some (PyError.gpioError (Option.some 13)
              ("Setting GPIO direction: " ++ strerror)), [eff])
          else
            let r := dirWriteLoop f direction remaining (i + 1)
            (r.1, eff :: r.2)
      | DirWriteRes.ioerr errno strerror =>
          (Option.some (PyError.gpioError (Option.some errno)
            ("Setting GPIO direction: " ++ strerror)), [eff])

/-- Outcomes of the OS calls made by SysfsGPIO open. -/
structure OpenOracle where
  isdir : Bool
  exportOk : Bool
  exportErrno : Int
  exportStrerror : String
  dirAppears : Bool
  dirWrite : Nat → DirWriteRes
  valueFd : Option Nat
  valueErrno : Int
  valueStrerror : String
  initDir : CdevGPIOModel.CallOracle
  initInv : CdevGPIOModel.CallOracle

/-- The tail of SysfsGPIO open after the export phase: open the value
attribute descriptor, then initialize the direction through the property
setter when this session did not export the line, then initialize the
inverted property to false. -/
def openValuePhase (o : OpenOracle) (s : State) (direction : Direction)
    (pre : List Effect) : Step :=
  match o.valueFd with
  | Option.none =>
      { state := s, trace := pre,
        err := Option.some (PyError.gpioError (Option.some o.valueErrno)
          ("Opening GPIO: " ++ o.valueStrerror)) }
  | Option.some fd =>
      let s1 := { s with fd := Option.some fd }
      let afterDir : Step :=
        if !s1.exported then
          let d := setDirection o.initDir s1 direction
          { d with trace := pre ++ d.trace }
        else
          { state := s1, trace := pre, err := Option.none }
      match afterDir.err with
      | Option.some e => { afterDir with err := Option.some e }
      | Option.none =>
          let inv := setInverted o.initInv afterDir.state false
          { state := inv.state, trace := afterDir.trace ++ inv.trace, err := inv.err }

/-- SysfsGPIO open: when the line's attribute directory does not exist,
write the line number to the export control file and wait (bounded
retries) for the directory to appear, recording that this session
performed the export, then retry-write the direction attribute; in all
cases open the value descriptor and initialize direction (when not
exported here) and inverted. -/
def gpioOpen (o : OpenOracle) (line : Nat) (direction : Direction) : Step :=
  let s0 : State := { fd := Option.none, line := line, exported := false }
  if o.isdir then
    openValuePhase o s0 direction []
  else
    let exportEff := Effect.writeAttr "export" (toString line ++ "\n")
    if !o.exportOk then
      { state := s0, trace := [exportEff],
        err := Option.some (PyError.gpioError (Option.some o.exportErrno)
          ("Exporting GPIO: " ++ o.exportStrerror)) }
    else if !o.dirAppears then
      { state := s0, trace := [exportEff],
        err := Option.some (PyError.timeoutError
          ("Exporting GPIO: waiting for \"/sys/class/gpio/gpio" ++
            toString line ++ "\" timed out")) }
    else
      let s1 := { s0 with exported := true }
      let dl := dirWriteLoop o.dirWrite direction GPIO_OPEN_RETRIES 0
      match dl.1 with
      | Option.some e =>
          { state := s1, trace := exportEff :: dl.2, err := Option.some e }
      | Option.none =>
          openValuePhase o s1 direction (exportEff :: dl.2)

end SysfsGPIOModel

namespace GPIOModel

/-- One already-open session handed to poll_multiple: its wait descriptor
and whether it is a sysfs session (isinstance check in the source; any
other session is treated as a character-device one). -/
structure PollItem where
  fd : Nat
  isSysfs : Bool
  deriving DecidableEq, Repr

/-- The wait-event mask poll_multiple registers for a session. -/
def registerMask (isSysfs : Bool) : Nat :=
  if isSysfs then POLLPRI ||| POLLERR else POLLIN ||| POLLRDNORM

/-- The fd-to-object dictionary built by poll_multiple: as in a Python
dict, a later registration for the same descriptor wins. -/
def fdGpioMap (gpios : List PollItem) (fd : Nat) : Option PollItem :=
  (gpios.filter (fun g => g.fd = fd)).getLast?

/-- The result-gathering loop of poll_multiple over the descriptors the
wait primitive reported ready, in the reported order: each owning session
is appended to the results, and a ready sysfs session's descriptor is
rewound to offset zero. A missing dictionary entry or a failed rewind
raises; the results list is meaningful only when no exception is
raised. -/
def gatherResults (gpios : List PollItem) (rewindOk : Bool) (rewindErrno : Int)
    (rewindStrerror : String) :
    List Nat → List PollItem × List Effect × Option PyError
  | [] => ([], [], Option.none)
  | fd :: rest =>
      match fdGpioMap gpios fd with
      | Option.none => ([], [], Option.some (PyError.keyError (toString fd)))
      | Option.some g =>
          if g.isSysfs then
            if rewindOk then
              let r := gatherResults gpios rewindOk rewindErrno rewindStrerror rest
              (g :: r.1, Effect.lseekZero fd :: r.2.1, r.2.2)
            else
              ([], [Effect.lseekZero fd],
                Option.some (PyError.gpioError (Option.some rewindErrno)
                  ("Rewinding GPIO: " ++ rewindStrerror)))
          else
            let r := gatherResults gpios rewindOk rewindErrno rewindStrerror rest
            (g :: r.1, r.2.1, r.2.2)

/-- GPIO.poll_multiple: registers every session's descriptor with the
backend-appropriate mask, waits once with the scaled timeout, then
gathers the sessions whose descriptors were reported ready. readyFds is
the list of descriptors the wait primitive reported, in order. -/
def pollMultiple (gpios : List PollItem) (timeout : Option Rat)
    (readyFds : List Nat) (rewindOk : Bool) (rewindErrno : Int)
    (rewindStrerror : String) : List PollItem × List Effect × Option PyError :=
  let regs := gpios.map (fun g => Effect.registerFd g.fd (registerMask g.isSysfs))
  let r := gatherResults gpios rewindOk rewindErrno rewindStrerror readyFds
  (r.1, regs ++ Effect.pollWait (scaleTimeout timeout) :: r.2.1, r.2.2)

end GPIOModel

instance : DecidableEq (Except PyError Nat) := fun a b =>
  match a, b with
  | Except.ok x, Except.ok y => decidable_of_iff (x = y) (by simp)
  | Except.error x, Except.error y => decidable_of_iff (x = y) (by simp)
  | Except.ok _, Except.error _ => Decidable.isFalse (by simp)
  | Except.error _, Except.ok _ => Decidable.isFalse (by simp)

/-- Host-kernel capability for per-line bias under the v1 ABI:
KERNEL_VERSION at least (5, 5), compared lexicographically as Python
compares version tuples. -/
def SUPPORTS_LINE_BIAS (kernelVersion : Nat × Nat) : Bool :=
  decide (5 < kernelVersion.1 ∨ (kernelVersion.1 = 5 ∧ 5 ≤ kernelVersion.2))

namespace CdevGPIOModel

theorem reopenRequest_err_state (o : ReopenOracle) (s : State) (d : Direction)
    (e : Edge) (b : Bias) (dr : Drive) (inv : Bool) (flags : Nat) :
    ((reopenRequest o s d e b dr inv flags).err).isSome = true →
      (reopenRequest o s d e b dr inv flags).state = s := by
  unfold reopenRequest
  split
  · split
    · cases o.requestFd <;> simp
    · cases o.requestFd <;> simp
  · cases o.requestFd <;> simp

end CdevGPIOModel

/-- A reopen-cycle state used in the reconfiguration-failure scenario:
an open input session on line 7 with line descriptor 5 and chip
descriptor 3. -/
def reconfState : CdevGPIOModel.State :=
  ⟨Option.some 7, Option.some 5, Option.some 3, Direction.input, Edge.none,
    Bias.default, Drive.default, false⟩

/-- OS outcomes for the reconfiguration-failure scenario: the close of
the old line descriptor succeeds and the fresh line request ioctl fails
with EBUSY. -/
def reconfOracle : CdevGPIOModel.ReopenOracle :=
  ⟨true, 0, "", Option.none, 16, "Device or resource busy"⟩

/-- C1, counterexample. Claim: when a reconfiguration fails after the old
line descriptor has been closed, the session is left either with the old
configuration intact or fully reopened with a new line descriptor, never
with the line descriptor closed and no replacement. In this concrete run
the close of the old descriptor succeeds, the fresh line request fails,
and the session is left with its line descriptor field cleared: neither
the old state nor any replacement descriptor. -/
theorem claim_C1_counterexample :
    ((CdevGPIOModel.reopen true (5, 4) reconfOracle reconfState Direction.output
        Edge.none Bias.default Drive.default false).err).isSome = true ∧
    Effect.closeFd 5 ∈ (CdevGPIOModel.reopen true (5, 4) reconfOracle reconfState
        Direction.output Edge.none Bias.default Drive.default false).trace ∧
    ¬ ((CdevGPIOModel.reopen true (5, 4) reconfOracle reconfState Direction.output
          Edge.none Bias.default Drive.default false).state = reconfState ∨
       ((CdevGPIOModel.reopen true (5, 4) reconfOracle reconfState Direction.output
          Edge.none Bias.default Drive.default false).state.lineFd).isSome = true) := by
  decide

/-- C1, amended: a failed reopen cycle always leaves the session in one
of exactly two defined states: everything untouched (the failure happened
before or at the close of the old descriptor), or the same state with the
line descriptor field cleared to the None sentinel and every cached
configuration field unchanged (the fresh line request failed after the
close). In particular the descriptor field never retains a stale closed
descriptor value, but it can be left cleared with no replacement. -/
theorem claim_C1_defined_state (supportsLineBias : Bool)
    (kernelVersion : Nat × Nat) (o : CdevGPIOModel.ReopenOracle)
    (s : CdevGPIOModel.State) (d : Direction) (e : Edge) (b : Bias) (dr : Drive)
    (inv : Bool) :
    ((CdevGPIOModel.reopen supportsLineBias kernelVersion o s d e b dr inv).err).isSome = true →
      (CdevGPIOModel.reopen supportsLineBias kernelVersion o s d e b dr inv).state = s ∨
      (CdevGPIOModel.reopen supportsLineBias kernelVersion o s d e b dr inv).state =
        { s with lineFd := Option.none } := by
  intro herr
  unfold CdevGPIOModel.reopen at herr ⊢
  by_cases hc : (b != Bias.default && !supportsLineBias) = true
  · rw [if_pos hc]; left; rfl
  · rw [if_neg hc] at herr ⊢
    cases hfd : s.lineFd with
    | none =>
        simp only [hfd] at herr ⊢
        left
        exact CdevGPIOModel.reopenRequest_err_state _ _ _ _ _ _ _ _ herr
    | some fd =>
        simp only [hfd] at herr ⊢
        by_cases hok : o.closeOk = true
        · simp only [hok, if_true] at herr ⊢
          right
          exact CdevGPIOModel.reopenRequest_err_state _ _ _ _ _ _ _ _ (by simpa using herr)
        · simp only [hok, if_false] at herr ⊢
          left
          rfl

/-- C1, witness for the amended theorem at the counterexample input. -/
theorem claim_C1_witness :
    ((CdevGPIOModel.reopen true (5, 4) reconfOracle reconfState Direction.output
        Edge.none Bias.default Drive.default false).err).isSome = true ∧
    ((CdevGPIOModel.reopen true (5, 4) reconfOracle reconfState Direction.output
        Edge.none Bias.default Drive.default false).state = reconfState ∨
     (CdevGPIOModel.reopen true (5, 4) reconfOracle reconfState Direction.output
        Edge.none Bias.default Drive.default false).state =
       { reconfState with lineFd := Option.none }) :=
  ⟨by decide,
   claim_C1_defined_state true (5, 4) reconfOracle reconfState Direction.output
     Edge.none Bias.default Drive.default false (by decide)⟩

/-- An all-success outcome for a single OS call. -/
def okCall : CdevGPIOModel.CallOracle := ⟨true, 0, ""⟩

/-- A sysfs session state on line 17 with value descriptor 3, not
exported by this session. -/
def sysfsSession : SysfsGPIOModel.State := ⟨Option.some 3, 17, false⟩

/-- C2, counterexample. Claim: on either backend, write with a bool value
raises a GPIOError before any value is written whenever the session's
direction is not out. For the sysfs backend the source has no direction
check: on a line whose direction attribute reads as in, write(True)
performs the value write and raises nothing. -/
theorem claim_C2_counterexample :
    SysfsGPIOModel.directionStr Direction.input = "in" ∧
    (SysfsGPIOModel.write okCall true 0 "" sysfsSession true).err = Option.none ∧
    (SysfsGPIOModel.write okCall true 0 "" sysfsSession true).trace =
      [Effect.writeValue 3 true, Effect.lseekZero 3] := by
  decide

/-- C2, amended: only the character-device backend guards write by
direction: CdevGPIO.write on a session whose cached direction is not out
raises the invalid-operation GPIOError with no OS interaction and no
state change; SysfsGPIO.write always begins with the value write on the
kept-open descriptor, regardless of the line's direction. -/
theorem claim_C2_write_direction_check :
    (∀ (o : CdevGPIOModel.CallOracle) (s : CdevGPIOModel.State) (v : Bool),
      s.direction ≠ Direction.output →
        (CdevGPIOModel.write o s v).err =
          Option.some (PyError.gpioError Option.none
            "Invalid operation: cannot write to input GPIO") ∧
        (CdevGPIOModel.write o s v).trace = [] ∧
        (CdevGPIOModel.write o s v).state = s) ∧
    (∀ (o : CdevGPIOModel.CallOracle) (rewindOk : Bool) (rewindErrno : Int)
      (rewindStrerror : String) (s : SysfsGPIOModel.State) (v : Bool),
      ((SysfsGPIOModel.write o rewindOk rewindErrno rewindStrerror s v).trace).head? =
        Option.some (Effect.writeValue (s.fd.getD 0) v)) := by
  constructor
  · intro o s v h
    have hb : (s.direction != Direction.output) = true := by
      simpa using h
    unfold CdevGPIOModel.write
    rw [if_pos hb]
    exact ⟨rfl, rfl, rfl⟩
  · intro o rewindOk rewindErrno rewindStrerror s v
    unfold SysfsGPIOModel.write
    split
    · rfl
    · split <;> rfl

/-- C2, witness for the amended theorem: a cdev input session refuses the
write untouched, and a sysfs session performs the value write first. -/
theorem claim_C2_witness :
    (reconfState.direction ≠ Direction.output ∧
      (CdevGPIOModel.write okCall reconfState true).err =
        Option.some (PyError.gpioError Option.none
          "Invalid operation: cannot write to input GPIO") ∧
      (CdevGPIOModel.write okCall reconfState true).trace = [] ∧
      (CdevGPIOModel.write okCall reconfState true).state = reconfState) ∧
    ((SysfsGPIOModel.write okCall true 0 "" sysfsSession true).trace).head? =
      Option.some (Effect.writeValue (sysfsSession.fd.getD 0) true) :=
  ⟨⟨by decide, claim_C2_write_direction_check.1 okCall reconfState true (by decide)⟩,
   claim_C2_write_direction_check.2 okCall true 0 "" sysfsSession true⟩

/-- C3, counterexample. Claim: on either backend, assigning a non-none
edge while the direction is out raises an unsupported/invalid-operation
error from the library, leaving the configuration unchanged. For the
sysfs backend the source has no direction check: on a line whose
direction attribute reads as out, assigning edge rising writes the edge
attribute (changing the configuration when the kernel accepts it) and
raises nothing of its own; only a kernel failure would surface, wrapped
as a propagated I/O error. -/
theorem claim_C3_counterexample :
    SysfsGPIOModel.directionStr Direction.output = "out" ∧
    (SysfsGPIOModel.setEdge okCall sysfsSession Edge.rising).err = Option.none ∧
    (SysfsGPIOModel.setEdge okCall sysfsSession Edge.rising).trace =
      [Effect.writeAttr "edge" "rising\n"] := by
  decide

/-- C3, amended: only the character-device backend guards the edge
mutator by direction: CdevGPIO.setEdge on a session whose cached
direction is not in raises the invalid-operation GPIOError with no OS
interaction and no state change; SysfsGPIO.setEdge unconditionally writes
the requested edge text to the edge attribute file, so any refusal is a
propagated kernel I/O error. -/
theorem claim_C3_edge_direction_check :
    (∀ (supportsLineBias : Bool) (kernelVersion : Nat × Nat)
      (o : CdevGPIOModel.ReopenOracle) (s : CdevGPIOModel.State) (e : Edge),
      s.direction ≠ Direction.input →
        (CdevGPIOModel.setEdge supportsLineBias kernelVersion o s e).err =
          Option.some (PyError.gpioError Option.none
            "Invalid operation: cannot set edge on output GPIO") ∧
        (CdevGPIOModel.setEdge supportsLineBias kernelVersion o s e).trace = [] ∧
        (CdevGPIOModel.setEdge supportsLineBias kernelVersion o s e).state = s) ∧
    (∀ (o : CdevGPIOModel.CallOracle) (s : SysfsGPIOModel.State) (e : Edge),
      (SysfsGPIOModel.setEdge o s e).trace =
        [Effect.writeAttr "edge" (SysfsGPIOModel.edgeStr e ++ "\n")]) := by
  constructor
  · intro sb kv o s e h
    have hb : (s.direction != Direction.input) = true := by simpa using h
    unfold CdevGPIOModel.setEdge
    rw [if_pos hb]
    exact ⟨rfl, rfl, rfl⟩
  · intro o s e
    unfold SysfsGPIOModel.setEdge
    split <;> rfl

/-- An open cdev output session on line 7, edge none. -/
def outputSession : CdevGPIOModel.State :=
  ⟨Option.some 7, Option.some 5, Option.some 3, Direction.output, Edge.none,
    Bias.default, Drive.default, false⟩

/-- C3, witness for the amended theorem. -/
theorem claim_C3_witness :
    (outputSession.direction ≠ Direction.input ∧
      (CdevGPIOModel.setEdge true (5, 4) reconfOracle outputSession Edge.rising).err =
        Option.some (PyError.gpioError Option.none
          "Invalid operation: cannot set edge on output GPIO") ∧
      (CdevGPIOModel.setEdge true (5, 4) reconfOracle outputSession Edge.rising).trace = [] ∧
      (CdevGPIOModel.setEdge true (5, 4) reconfOracle outputSession Edge.rising).state = outputSession) ∧
    (SysfsGPIOModel.setEdge okCall sysfsSession Edge.falling).trace =
      [Effect.writeAttr "edge" (SysfsGPIOModel.edgeStr Edge.falling ++ "\n")] :=
  ⟨⟨by decide,
    claim_C3_edge_direction_check.1 true (5, 4) reconfOracle outputSession Edge.rising (by decide)⟩,
   claim_C3_edge_direction_check.2 okCall sysfsSession Edge.falling⟩

/-- C7: on a kernel below the per-line-bias threshold (5, 5), any reopen
cycle requesting a non-default bias, whether from the initial open or
from a bias mutation whose value differs from the cached one, fails with
the descriptive GPIOError naming the kernel version, with an empty trace:
no close and no line request control call is issued, and the session
state is untouched. -/
theorem claim_C7_bias_kernel_check (kernelVersion : Nat × Nat)
    (o : CdevGPIOModel.ReopenOracle) (s : CdevGPIOModel.State) (d : Direction)
    (e : Edge) (b : Bias) (dr : Drive) (inv : Bool) :
    SUPPORTS_LINE_BIAS kernelVersion = false → b ≠ Bias.default →
      (CdevGPIOModel.reopen (SUPPORTS_LINE_BIAS kernelVersion) kernelVersion o s d e b dr inv =
        { state := s, trace := [],
          err := Option.some (PyError.gpioError Option.none
            (CdevGPIOModel.biasErrMsg kernelVersion)) }) ∧
      (s.bias ≠ b →
        CdevGPIOModel.setBias (SUPPORTS_LINE_BIAS kernelVersion) kernelVersion o s b =
          { state := s, trace := [],
            err := Option.some (PyError.gpioError Option.none
              (CdevGPIOModel.biasErrMsg kernelVersion)) }) := by
  intro hsup hb
  have hcond : (b != Bias.default && !SUPPORTS_LINE_BIAS kernelVersion) = true := by
    rw [hsup]; simpa using hb
  constructor
  · unfold CdevGPIOModel.reopen
    rw [if_pos hcond]
  · intro hne
    unfold CdevGPIOModel.setBias
    rw [if_neg (by simpa using hne)]
    unfold CdevGPIOModel.reopen
    rw [if_pos hcond]

/-- C7, witness: kernel 4.19, requesting pull-up bias. -/
theorem claim_C7_witness :
    SUPPORTS_LINE_BIAS (4, 19) = false ∧ Bias.pullUp ≠ Bias.default ∧
    (CdevGPIOModel.reopen (SUPPORTS_LINE_BIAS (4, 19)) (4, 19) reconfOracle reconfState
        Direction.input Edge.none Bias.pullUp Drive.default false =
      { state := reconfState, trace := [],
        err := Option.some (PyError.gpioError Option.none
          (CdevGPIOModel.biasErrMsg (4, 19))) }) ∧
    (reconfState.bias ≠ Bias.pullUp →
      CdevGPIOModel.setBias (SUPPORTS_LINE_BIAS (4, 19)) (4, 19) reconfOracle reconfState Bias.pullUp =
        { state := reconfState, trace := [],
          err := Option.some (PyError.gpioError Option.none
            (CdevGPIOModel.biasErrMsg (4, 19))) }) :=
  ⟨by decide, by decide,
   (claim_C7_bias_kernel_check (4, 19) reconfOracle reconfState Direction.input
     Edge.none Bias.pullUp Drive.default false (by decide) (by decide)).1,
   fun _ => (claim_C7_bias_kernel_check (4, 19) reconfOracle reconfState Direction.input
     Edge.none Bias.pullUp Drive.default false (by decide) (by decide)).2 (by decide)⟩

theorem cdevClose_success (o : CdevGPIOModel.CloseOracle) (s : CdevGPIOModel.State)
    (herr : (CdevGPIOModel.close o s).err = Option.none) :
    CdevGPIOModel.close o s =
      { state := { s with
          lineFd := Option.none, chipFd := Option.none,
          edge := Edge.none, direction := Direction.input, line := Option.none },
        trace :=
          (match s.lineFd with
            | Option.some fd => [Effect.closeFd fd]
            | Option.none => []) ++
          (match s.chipFd with
            | Option.some fd => [Effect.closeFd fd]
            | Option.none => []),
        err := Option.none } := by
  unfold CdevGPIOModel.close at herr ⊢
  by_cases h1 : (s.lineFd.isSome && !o.lineOk) = true
  · rw [if_pos h1] at herr; simp at herr
  · rw [if_neg h1] at herr ⊢
    by_cases h2 : (s.chipFd.isSome && !o.chipOk) = true
    · rw [if_pos h2] at herr; simp at herr
    · rw [if_neg h2]

theorem sysfsClose_fd_none (o : SysfsGPIOModel.CloseOracle) (s : SysfsGPIOModel.State)
    (herr : (SysfsGPIOModel.close o s).err = Option.none) :
    ((SysfsGPIOModel.close o s).state).fd = Option.none := by
  unfold SysfsGPIOModel.close at herr ⊢
  cases hfd : s.fd with
  | none => simp only [hfd]
  | some fd =>
      simp only [hfd] at herr ⊢
      by_cases h1 : (!o.closeOk) = true
      · rw [if_pos h1] at herr; simp at herr
      · rw [if_neg h1] at herr ⊢
        by_cases h2 : s.exported = true
        · rw [if_pos h2] at herr ⊢
          by_cases h3 : o.unexportOk = true
          · rw [if_pos h3]
          · rw [if_neg h3] at herr; simp at herr
        · rw [if_neg h2]

theorem sysfsClose_noop (o : SysfsGPIOModel.CloseOracle) (s : SysfsGPIOModel.State)
    (h : s.fd = Option.none) :
    SysfsGPIOModel.close o s = { state := s, trace := [], err := Option.none } := by
  unfold SysfsGPIOModel.close
  simp only [h]

/-- C4: on both backends a second close after a successful close raises
nothing and performs no OS operation at all (in particular it closes no
descriptor again); and a successful cdev close closes the line descriptor
before the chip descriptor and resets the cached direction to in and the
cached edge to none. -/
theorem claim_C4_idempotent_close :
    (∀ (o o2 : CdevGPIOModel.CloseOracle) (s : CdevGPIOModel.State),
      (CdevGPIOModel.close o s).err = Option.none →
        (CdevGPIOModel.close o2 (CdevGPIOModel.close o s).state).err = Option.none ∧
        (CdevGPIOModel.close o2 (CdevGPIOModel.close o s).state).trace = [] ∧
        (CdevGPIOModel.close o s).state.direction = Direction.input ∧
        (CdevGPIOModel.close o s).state.edge = Edge.none ∧
        (∀ l c, s.lineFd = Option.some l → s.chipFd = Option.some c →
          (CdevGPIOModel.close o s).trace = [Effect.closeFd l, Effect.closeFd c])) ∧
    (∀ (o o2 : SysfsGPIOModel.CloseOracle) (s : SysfsGPIOModel.State),
      (SysfsGPIOModel.close o s).err = Option.none →
        (SysfsGPIOModel.close o2 (SysfsGPIOModel.close o s).state).err = Option.none ∧
        (SysfsGPIOModel.close o2 (SysfsGPIOModel.close o s).state).trace = []) := by
  constructor
  · intro o o2 s herr
    rw [cdevClose_success o s herr]
    refine ⟨rfl, rfl, rfl, rfl, ?_⟩
    intro l c hl hc
    rw [hl, hc]
    rfl
  · intro o o2 s herr
    rw [sysfsClose_noop o2 _ (sysfsClose_fd_none o s herr)]
    exact ⟨rfl, rfl⟩

/-- An all-success outcome for the two OS closes of CdevGPIO.close. -/
def okCdevClose : CdevGPIOModel.CloseOracle := ⟨true, 0, "", true, 0, ""⟩

/-- An all-success outcome for the OS calls of SysfsGPIO.close. -/
def okSysfsClose : SysfsGPIOModel.CloseOracle := ⟨true, 0, "", true, 0, ""⟩

/-- C4, witness: double close of a concrete cdev session and of a
concrete sysfs session. -/
theorem claim_C4_witness :
    (CdevGPIOModel.close okCdevClose outputSession).err = Option.none ∧
    (CdevGPIOModel.close okCdevClose (CdevGPIOModel.close okCdevClose outputSession).state).err = Option.none ∧
    (CdevGPIOModel.close okCdevClose (CdevGPIOModel.close okCdevClose outputSession).state).trace = [] ∧
    (CdevGPIOModel.close okCdevClose outputSession).state.direction = Direction.input ∧
    (CdevGPIOModel.close okCdevClose outputSession).state.edge = Edge.none ∧
    (CdevGPIOModel.close okCdevClose outputSession).trace = [Effect.closeFd 5, Effect.closeFd 3] ∧
    (SysfsGPIOModel.close okSysfsClose sysfsSession).err = Option.none ∧
    (SysfsGPIOModel.close okSysfsClose (SysfsGPIOModel.close okSysfsClose sysfsSession).state).err = Option.none ∧
    (SysfsGPIOModel.close okSysfsClose (SysfsGPIOModel.close okSysfsClose sysfsSession).state).trace = [] :=
  have hc := claim_C4_idempotent_close.1 okCdevClose okCdevClose outputSession (by decide)
  have hs := claim_C4_idempotent_close.2 okSysfsClose okSysfsClose sysfsSession (by decide)
  ⟨by decide, hc.1, hc.2.1, hc.2.2.1, hc.2.2.2.1,
   hc.2.2.2.2 5 3 (by decide) (by decide), by decide, hs.1, hs.2⟩

theorem openValuePhase_success (o : SysfsGPIOModel.OpenOracle) (s : SysfsGPIOModel.State)
    (d : Direction) (pre : List Effect)
    (herr : (SysfsGPIOModel.openValuePhase o s d pre).err = Option.none) :
    (SysfsGPIOModel.openValuePhase o s d pre).state.exported = s.exported ∧
    ((SysfsGPIOModel.openValuePhase o s d pre).state.fd).isSome = true ∧
    (SysfsGPIOModel.openValuePhase o s d pre).state.line = s.line := by
  obtain ⟨fd0, line0, exp0⟩ := s
  unfold SysfsGPIOModel.openValuePhase at herr ⊢
  cases hv : o.valueFd with
  | none => simp only [hv] at herr; simp at herr
  | some fd =>
      simp only [hv] at herr ⊢
      cases exp0 with
      | true =>
          simp only [SysfsGPIOModel.setInverted] at herr ⊢
          by_cases hi : o.initInv.ok = true
          · simp [hi]
          · simp [hi] at herr
      | false =>
          simp only [SysfsGPIOModel.setDirection, SysfsGPIOModel.setInverted] at herr ⊢
          by_cases hd2 : o.initDir.ok = true
          · simp only [hd2, if_true] at herr ⊢
            by_cases hi : o.initInv.ok = true
            · simp [hi]
            · simp [hi] at herr
          · simp [hd2] at herr

theorem gpioOpen_success_state (o : SysfsGPIOModel.OpenOracle) (line : Nat) (d : Direction)
    (herr : (SysfsGPIOModel.gpioOpen o line d).err = Option.none) :
    (SysfsGPIOModel.gpioOpen o line d).state.exported = !o.isdir ∧
    ((SysfsGPIOModel.gpioOpen o line d).state.fd).isSome = true ∧
    (SysfsGPIOModel.gpioOpen o line d).state.line = line := by
  unfold SysfsGPIOModel.gpioOpen at herr ⊢
  by_cases hd : o.isdir = true
  · rw [if_pos hd] at herr ⊢
    have h := openValuePhase_success o ⟨Option.none, line, false⟩ d [] herr
    rw [hd]
    simpa using h
  · rw [if_neg hd] at herr ⊢
    by_cases he : (!o.exportOk) = true
    · rw [if_pos he] at herr; simp at herr
    · rw [if_neg he] at herr ⊢
      by_cases ha : (!o.dirAppears) = true
      · rw [if_pos ha] at herr; simp at herr
      · rw [if_neg ha] at herr ⊢
        cases hdl : (SysfsGPIOModel.dirWriteLoop o.dirWrite d SysfsGPIOModel.GPIO_OPEN_RETRIES 0).1 with
        | some e => simp only [hdl] at herr; simp at herr
        | none =>
            simp only [hdl] at herr ⊢
            have h := openValuePhase_success o ⟨Option.none, line, true⟩ d
              (Effect.writeAttr "export" (toString line ++ "\n") ::
                (SysfsGPIOModel.dirWriteLoop o.dirWrite d SysfsGPIOModel.GPIO_OPEN_RETRIES 0).2) herr
            rw [Bool.not_eq_true] at hd
            rw [hd]
            simpa using h

theorem sysfsClose_unexport_iff (co : SysfsGPIOModel.CloseOracle) (s : SysfsGPIOModel.State)
    (hfd : (s.fd).isSome = true) (hok : co.closeOk = true) :
    (Effect.writeAttr "unexport" (toString s.line ++ "\n") ∈ (SysfsGPIOModel.close co s).trace) ↔
      s.exported = true := by
  obtain ⟨fd, hfdeq⟩ := Option.isSome_iff_exists.mp hfd
  by_cases h2 : s.exported = true
  · by_cases h3 : co.unexportOk = true <;>
      simp [SysfsGPIOModel.close, hfdeq, hok, h2, h3]
  · have h2f : s.exported = false := by simpa using h2
    simp [SysfsGPIOModel.close, hfdeq, hok, h2f]

theorem findLoop_spec (fd : Nat) (names : Nat → Option String) (errno : Int)
    (strerror : String) (target : String) :
    ∀ (remaining i : Nat),
      (∀ j, i ≤ j → j < i + remaining → (names j).isSome = true) →
      (((CdevGPIOModel.findLoop fd names errno strerror target remaining i).1 =
          Except.ok Option.none ∧
        ∀ j, i ≤ j → j < i + remaining → names j ≠ Option.some target) ∨
      (∃ k, (CdevGPIOModel.findLoop fd names errno strerror target remaining i).1 =
          Except.ok (Option.some k) ∧ i ≤ k ∧ k < i + remaining ∧
        names k = Option.some target ∧
        ∀ j, i ≤ j → j < k → names j ≠ Option.some target)) := by
  intro remaining
  induction remaining with
  | zero =>
      intro i _
      left
      exact ⟨rfl, fun j h1 h2 => absurd h2 (by omega)⟩
  | succ n ih =>
      intro i hsome
      have h0 : (names i).isSome = true := hsome i (le_refl i) (by omega)
      obtain ⟨nm, hnm⟩ := Option.isSome_iff_exists.mp h0
      by_cases heq : nm = target
      · right
        refine ⟨i, ?_, le_refl i, by omega, by rw [hnm, heq], fun j h1 h2 => absurd h2 (by omega)⟩
        simp [CdevGPIOModel.findLoop, hnm, heq]
      · have hni : names i ≠ Option.some target := by rw [hnm]; simp [heq]
        have ihs := ih (i + 1) (fun j h1 h2 => hsome j (by omega) (by omega))
        rcases ihs with ⟨hok, hnone⟩ | ⟨k, hk, hk1, hk2, hk3, hk4⟩
        · left
          constructor
          · simp [CdevGPIOModel.findLoop, hnm, heq, hok]
          · intro j h1 h2
            rcases Nat.eq_or_lt_of_le h1 with rfl | hlt
            · exact hni
            · exact hnone j (by omega) (by omega)
        · right
          refine ⟨k, ?_, by omega, by omega, hk3, ?_⟩
          · simp [CdevGPIOModel.findLoop, hnm, heq, hk]
          · intro j h1 h2
            rcases Nat.eq_or_lt_of_le h1 with rfl | hlt
            · exact hni
            · exact hk4 j (by omega) h2

/-- C5: when the chip open, the line-count query, every line-info query
below the line count and the chip close all succeed, line resolution by
name returns the smallest offset below the line count whose name equals
the requested name exactly; when no offset matches, it raises a
LookupError, a failure kind distinct from the wrapped-I/O-error kind; and
on both of these paths the chip descriptor it opened is closed. -/
theorem claim_C5_find_line_by_name (o : CdevGPIOModel.FindOracle) (target : String)
    (fd count : Nat) :
    o.openFd = Option.some fd → o.chipCount = Option.some count →
    (∀ i, i < count → ((o.lineName i).isSome = true)) → o.closeOk = true →
      (((¬ ∃ i, i < count ∧ o.lineName i = Option.some target) →
        (CdevGPIOModel.findLineByName o target).1 =
          Except.error (PyError.lookupError
            ("Opening GPIO line: GPIO line \"" ++ target ++ "\" not found by name.")) ∧
        Effect.closeFd fd ∈ (CdevGPIOModel.findLineByName o target).2) ∧
      ((∃ i, i < count ∧ o.lineName i = Option.some target) →
        ∃ i, (CdevGPIOModel.findLineByName o target).1 = Except.ok i ∧ i < count ∧
          o.lineName i = Option.some target ∧
          (∀ j, j < i → o.lineName j ≠ Option.some target) ∧
          Effect.closeFd fd ∈ (CdevGPIOModel.findLineByName o target).2) ∧
      (∀ errno msg msg2, PyError.lookupError msg ≠ PyError.gpioError errno msg2)) := by
  intro hopen hcount hsome hclose
  have hspec := findLoop_spec fd o.lineName o.lineErrno o.lineStrerror target count 0
    (fun j h1 h2 => hsome j (by omega))
  unfold CdevGPIOModel.findLineByName
  simp only [hopen, hcount]
  rcases hspec with ⟨hok, hnone⟩ | ⟨k, hk, hk1, hk2, hk3, hk4⟩
  · refine ⟨fun _ => ?_, fun hex => ?_, fun errno msg msg2 => by simp⟩
    · constructor
      · simp [hok, hclose]
      · simp [hok, hclose]
    · exfalso
      obtain ⟨i, hi, hit⟩ := hex
      exact hnone i (by omega) (by omega) hit
  · refine ⟨fun hnex => ?_, fun _ => ?_, fun errno msg msg2 => by simp⟩
    · exfalso
      exact hnex ⟨k, by omega, hk3⟩
    · refine ⟨k, ?_, by omega, hk3, fun j hj => hk4 j (by omega) hj, ?_⟩
      · simp [hk, hclose]
      · simp [hk, hclose]

/-- A three-line chip whose lines are named PA0, PA1, PA2, on which
every OS call of the lookup succeeds; the chip opens as descriptor 4. -/
def namedChip : CdevGPIOModel.FindOracle :=
  ⟨Option.some 4, 0, "", Option.some 3, 0, "",
    fun i => Option.some ("PA" ++ toString i), 0, "", true, 0, ""⟩

/-- C5, witness: looking up the name PA1 on the three-line chip. -/
theorem claim_C5_witness :
    (namedChip.openFd = Option.some 4 ∧ namedChip.chipCount = Option.some 3 ∧
      namedChip.closeOk = true ∧
      (∃ i, i < 3 ∧ namedChip.lineName i = Option.some "PA1")) ∧
    (∃ i, (CdevGPIOModel.findLineByName namedChip "PA1").1 = Except.ok i ∧ i < 3 ∧
      namedChip.lineName i = Option.some "PA1" ∧
      (∀ j, j < i → namedChip.lineName j ≠ Option.some "PA1") ∧
      Effect.closeFd 4 ∈ (CdevGPIOModel.findLineByName namedChip "PA1").2) :=
  ⟨⟨rfl, rfl, rfl, ⟨1, by decide, by decide⟩⟩,
   (claim_C5_find_line_by_name namedChip "PA1" 4 3 rfl rfl (by decide) rfl).2.1
     ⟨1, by decide, by decide⟩⟩

/-- C6: for a sysfs session whose open succeeded and whose value
descriptor close succeeds, the session writes the line number to the
unexport control file during close exactly when this same session
performed the export during its open, which is exactly when the line's
attribute directory did not exist at open time; a session that merely
reused an already-exported line never unexports it. -/
theorem claim_C6_export_ownership (o : SysfsGPIOModel.OpenOracle) (line : Nat)
    (d : Direction) (co : SysfsGPIOModel.CloseOracle) :
    (SysfsGPIOModel.gpioOpen o line d).err = Option.none → co.closeOk = true →
      ((SysfsGPIOModel.gpioOpen o line d).state.exported = !o.isdir) ∧
      ((Effect.writeAttr "unexport" (toString line ++ "\n") ∈
          (SysfsGPIOModel.close co (SysfsGPIOModel.gpioOpen o line d).state).trace) ↔
        o.isdir = false) := by
  intro herr hok
  obtain ⟨hexp, hfd, hline⟩ := gpioOpen_success_state o line d herr
  refine ⟨hexp, ?_⟩
  have h := sysfsClose_unexport_iff co (SysfsGPIOModel.gpioOpen o line d).state hfd hok
  rw [hline] at h
  rw [h, hexp]
  cases o.isdir <;> simp

/-- An open scenario in which the line's attribute directory is missing
at open time, so this session exports it; every OS call succeeds. -/
def exportingOpen : SysfsGPIOModel.OpenOracle :=
  ⟨false, true, 0, "", true, fun _ => SysfsGPIOModel.DirWriteRes.ok,
    Option.some 6, 0, "", okCall, okCall⟩

/-- An open scenario in which the line's attribute directory already
exists at open time, so this session merely reuses the export. -/
def reusingOpen : SysfsGPIOModel.OpenOracle :=
  ⟨true, true, 0, "", true, fun _ => SysfsGPIOModel.DirWriteRes.ok,
    Option.some 6, 0, "", okCall, okCall⟩

/-- C6, witness: the exporting session unexports on close. -/
theorem claim_C6_witness :
    (SysfsGPIOModel.gpioOpen exportingOpen 17 Direction.input).err = Option.none ∧
    okSysfsClose.closeOk = true ∧
    ((SysfsGPIOModel.gpioOpen exportingOpen 17 Direction.input).state.exported =
        !exportingOpen.isdir ∧
      ((Effect.writeAttr "unexport" (toString 17 ++ "\n") ∈
          (SysfsGPIOModel.close okSysfsClose
            (SysfsGPIOModel.gpioOpen exportingOpen 17 Direction.input).state).trace) ↔
        exportingOpen.isdir = false)) :=
  ⟨by decide, by decide,
   claim_C6_export_ownership exportingOpen 17 Direction.input okSysfsClose
     (by decide) (by decide)⟩

/-- C8: the timeout handed to the wait primitive by poll and
poll_multiple is the seconds value scaled by 1000 when positive, zero
unscaled when zero (an immediate non-blocking check), and unscaled when
negative or absent (an indefinite blocking wait); and poll returns true
exactly when the wait primitive reported at least one event. -/
theorem claim_C8_poll_timeout_semantics :
    (∀ t : Rat, 0 < t → scaleTimeout (Option.some t) = Option.some (t * 1000)) ∧
    scaleTimeout (Option.some 0) = Option.some 0 ∧
    (∀ t : Rat, t < 0 → scaleTimeout (Option.some t) = Option.some t) ∧
    scaleTimeout Option.none = Option.none ∧
    (∀ (numEvents : Nat) (s : CdevGPIOModel.State) (t : Option Rat),
      s.direction = Direction.input →
        (CdevGPIOModel.poll numEvents s t).trace =
          [Effect.registerFd (s.lineFd.getD 0) (POLLIN ||| POLLPRI ||| POLLERR),
            Effect.pollWait (scaleTimeout t)] ∧
        ((CdevGPIOModel.poll numEvents s t).ret = true ↔ 1 ≤ numEvents)) ∧
    (∀ (numEvents : Nat) (rewindOk : Bool) (rewindErrno : Int)
      (rewindStrerror : String) (s : SysfsGPIOModel.State) (t : Option Rat),
      Effect.pollWait (scaleTimeout t) ∈
        (SysfsGPIOModel.poll numEvents rewindOk rewindErrno rewindStrerror s t).trace ∧
      ((SysfsGPIOModel.poll numEvents rewindOk rewindErrno rewindStrerror s t).err = Option.none →
        ((SysfsGPIOModel.poll numEvents rewindOk rewindErrno rewindStrerror s t).ret = true ↔
          1 ≤ numEvents))) ∧
    (∀ (gpios : List GPIOModel.PollItem) (t : Option Rat) (readyFds : List Nat)
      (rewindOk : Bool) (rewindErrno : Int) (rewindStrerror : String),
      Effect.pollWait (scaleTimeout t) ∈
        (GPIOModel.pollMultiple gpios t readyFds rewindOk rewindErrno rewindStrerror).2.1) := by
  refine ⟨?_, ?_, ?_, rfl, ?_, ?_, ?_⟩
  · intro t ht
    simp only [scaleTimeout]
    rw [if_pos ht]
  · simp only [scaleTimeout]
    norm_num
  · intro t ht
    simp only [scaleTimeout]
    rw [if_neg (not_lt.mpr (le_of_lt ht))]
  · intro numEvents s t h
    have hb : (s.direction != Direction.input) = false := by simp [h]
    unfold CdevGPIOModel.poll
    rw [hb]
    simp [Nat.lt_iff_add_one_le]
  · intro numEvents rewindOk rewindErrno rewindStrerror s t
    unfold SysfsGPIOModel.poll
    by_cases hn : 0 < numEvents
    · rw [if_pos hn]
      by_cases hr : rewindOk = true
      · rw [if_pos hr]
        refine ⟨by simp, fun _ => by simpa [Nat.lt_iff_add_one_le] using hn⟩
      · rw [if_neg hr]
        exact ⟨by simp, fun hcontra => by simp at hcontra⟩
    · rw [if_neg hn]
      refine ⟨by simp, fun _ => ?_⟩
      simp only [Nat.lt_iff_add_one_le] at hn
      simpa using hn
  · intro gpios t readyFds rewindOk rewindErrno rewindStrerror
    unfold GPIOModel.pollMultiple
    simp

/-- C8, witness: a concrete positive, zero and negative timeout on
concrete cdev, sysfs and multi-session polls. -/
theorem claim_C8_witness :
    ((0 : Rat) < 5 ∧ scaleTimeout (Option.some 5) = Option.some (5 * 1000)) ∧
    scaleTimeout (Option.some 0) = Option.some 0 ∧
    ((-3 : Rat) < 0 ∧ scaleTimeout (Option.some (-3)) = Option.some (-3)) ∧
    scaleTimeout Option.none = Option.none ∧
    (reconfState.direction = Direction.input ∧
      (CdevGPIOModel.poll 2 reconfState (Option.some 5)).trace =
        [Effect.registerFd (reconfState.lineFd.getD 0) (POLLIN ||| POLLPRI ||| POLLERR),
          Effect.pollWait (scaleTimeout (Option.some 5))] ∧
      ((CdevGPIOModel.poll 2 reconfState (Option.some 5)).ret = true ↔ 1 ≤ 2)) ∧
    (Effect.pollWait (scaleTimeout (Option.some 0)) ∈
        (SysfsGPIOModel.poll 0 true 0 "" sysfsSession (Option.some 0)).trace ∧
      ((SysfsGPIOModel.poll 0 true 0 "" sysfsSession (Option.some 0)).err = Option.none →
        ((SysfsGPIOModel.poll 0 true 0 "" sysfsSession (Option.some 0)).ret = true ↔ 1 ≤ 0))) ∧
    Effect.pollWait (scaleTimeout Option.none) ∈
      (GPIOModel.pollMultiple [⟨3, false⟩] Option.none [] true 0 "").2.1 :=
  have h := claim_C8_poll_timeout_semantics
  ⟨⟨by norm_num, h.1 5 (by norm_num)⟩, h.2.1,
   ⟨by norm_num, h.2.2.1 (-3) (by norm_num)⟩, h.2.2.2.1,
   ⟨rfl, h.2.2.2.2.1 2 reconfState (Option.some 5) rfl⟩,
   h.2.2.2.2.2.1 0 true 0 "" sysfsSession (Option.some 0),
   h.2.2.2.2.2.2 [⟨3, false⟩] Option.none [] true 0 ""⟩

/-- C10: on a cdev session whose cached direction is not in, every edge
assignment raises the invalid-operation GPIOError with the state
untouched and no OS interaction, for every edge value, including the
value none and including the value already cached: the direction check
precedes the equality short-circuit. -/
theorem claim_C10_edge_check_precedes_shortcircuit (supportsLineBias : Bool)
    (kernelVersion : Nat × Nat) (o : CdevGPIOModel.ReopenOracle)
    (s : CdevGPIOModel.State) (e : Edge) :
    s.direction ≠ Direction.input →
      (CdevGPIOModel.setEdge supportsLineBias kernelVersion o s e).err =
        Option.some (PyError.gpioError Option.none
          "Invalid operation: cannot set edge on output GPIO") ∧
      (CdevGPIOModel.setEdge supportsLineBias kernelVersion o s e).state = s ∧
      (CdevGPIOModel.setEdge supportsLineBias kernelVersion o s e).trace = [] := by
  intro h
  have hb : (s.direction != Direction.input) = true := by simpa using h
  unfold CdevGPIOModel.setEdge
  rw [if_pos hb]
  exact ⟨rfl, rfl, rfl⟩

/-- C10, witness: assigning edge none, the cached value, on an output
session still raises. -/
theorem claim_C10_witness :
    outputSession.edge = Edge.none ∧
    outputSession.direction ≠ Direction.input ∧
    ((CdevGPIOModel.setEdge true (5, 4) reconfOracle outputSession Edge.none).err =
      Option.some (PyError.gpioError Option.none
        "Invalid operation: cannot set edge on output GPIO") ∧
     (CdevGPIOModel.setEdge true (5, 4) reconfOracle outputSession Edge.none).state = outputSession ∧
     (CdevGPIOModel.setEdge true (5, 4) reconfOracle outputSession Edge.none).trace = []) :=
  ⟨by decide, by decide,
   claim_C10_edge_check_precedes_shortcircuit true (5, 4) reconfOracle outputSession
     Edge.none (by decide)⟩

theorem fdGpioMap_mem (gpios : List GPIOModel.PollItem) (fd : Nat) (g : GPIOModel.PollItem)
    (h : GPIOModel.fdGpioMap gpios fd = Option.some g) : g ∈ gpios ∧ g.fd = fd := by
  unfold GPIOModel.fdGpioMap at h
  have hmem : g ∈ gpios.filter (fun g2 => g2.fd = fd) := by
    obtain ⟨hne, hEq⟩ := List.mem_getLast?_eq_getLast (Option.mem_def.mpr h)
    rw [hEq]
    exact List.getLast_mem hne
  have h2 := List.mem_filter.mp hmem
  exact ⟨h2.1, by simpa using h2.2⟩

theorem fdGpioMap_self : ∀ (gpios : List GPIOModel.PollItem),
    (gpios.map (fun g => g.fd)).Nodup →
    ∀ g ∈ gpios, GPIOModel.fdGpioMap gpios (g.fd) = Option.some g := by
  intro gpios
  induction gpios with
  | nil => intro _ g hg; cases hg
  | cons h t ih =>
      intro hnd g hg
      rw [List.map_cons, List.nodup_cons] at hnd
      unfold GPIOModel.fdGpioMap
      rcases List.mem_cons.mp hg with rfl | hgt
      · have hfil : t.filter (fun g2 => g2.fd = g.fd) = [] := by
          rw [List.filter_eq_nil_iff]
          intro a ha
          simp only [decide_eq_true_eq]
          intro hEq
          exact hnd.1 (hEq ▸ List.mem_map_of_mem (fun g2 => g2.fd) ha)
        rw [List.filter_cons]
        simp [hfil]
      · have hne : ¬ (h.fd = g.fd) := by
          intro hEq
          exact hnd.1 (hEq ▸ List.mem_map_of_mem (fun g2 => g2.fd) hgt)
        have ht := ih hnd.2 g hgt
        unfold GPIOModel.fdGpioMap at ht
        rw [List.filter_cons]
        simp only [hne, decide_eq_true_eq, if_false]
        exact ht

theorem gatherResults_spec (gpios : List GPIOModel.PollItem) (re : Int) (rs : String) :
    ∀ readyFds : List Nat,
      (∀ fd ∈ readyFds, ∃ g ∈ gpios, g.fd = fd) →
      ((GPIOModel.gatherResults gpios true re rs readyFds).2.2 = Option.none ∧
      ((GPIOModel.gatherResults gpios true re rs readyFds).1).map (fun g => g.fd) = readyFds ∧
      (∀ g ∈ (GPIOModel.gatherResults gpios true re rs readyFds).1, g ∈ gpios) ∧
      (∀ fd2, Effect.lseekZero fd2 ∈ (GPIOModel.gatherResults gpios true re rs readyFds).2.1 ↔
        ∃ g, GPIOModel.fdGpioMap gpios fd2 = Option.some g ∧ fd2 ∈ readyFds ∧ g.isSysfs = true)) := by
  intro readyFds
  induction readyFds with
  | nil =>
      intro _
      refine ⟨rfl, rfl, fun g hg => absurd hg (List.not_mem_nil g), fun fd2 => ?_⟩
      simp [GPIOModel.gatherResults]
  | cons fd rest ih =>
      intro hcov
      obtain ⟨g, hgmem, hgfd⟩ := hcov fd (List.mem_cons_self fd rest)
      have hmap : (GPIOModel.fdGpioMap gpios fd).isSome = true := by
        unfold GPIOModel.fdGpioMap
        have hf : g ∈ gpios.filter (fun g2 => g2.fd = fd) :=
          List.mem_filter.mpr ⟨hgmem, by simp [hgfd]⟩
        rw [List.getLast?_isSome]
        exact List.ne_nil_of_mem hf
      obtain ⟨g2, hg2⟩ := Option.isSome_iff_exists.mp hmap
      have hg2m := fdGpioMap_mem gpios fd g2 hg2
      have ihr := ih (fun fd2 h2 => hcov fd2 (List.mem_cons_of_mem fd h2))
      by_cases hsys : g2.isSysfs = true
      · refine ⟨?_, ?_, ?_, ?_⟩
        · simp [GPIOModel.gatherResults, hg2, hsys, ihr.1]
        · simp only [GPIOModel.gatherResults, hg2, hsys, if_true]
          simp [hg2m.2, ihr.2.1]
        · intro g3 hg3
          simp only [GPIOModel.gatherResults, hg2, hsys, if_true] at hg3
          rcases List.mem_cons.mp hg3 with rfl | hg3
          · exact hg2m.1
          · exact ihr.2.2.1 g3 hg3
        · intro fd2
          simp only [GPIOModel.gatherResults, hg2, hsys, if_true]
          simp only [List.mem_cons]
          constructor
          · intro hmem2
            rcases hmem2 with heq2 | hmem2
            · have : fd2 = fd := by
                injection heq2
              exact ⟨g2, this ▸ hg2, Or.inl this, hsys⟩
            · obtain ⟨g4, hm4, hr4, hs4⟩ := (ihr.2.2.2 fd2).mp hmem2
              exact ⟨g4, hm4, Or.inr hr4, hs4⟩
          · rintro ⟨g4, hm4, hr4, hs4⟩
            rcases hr4 with rfl | hr4
            · left
              rfl
            · right
              exact (ihr.2.2.2 fd2).mpr ⟨g4, hm4, hr4, hs4⟩
      · refine ⟨?_, ?_, ?_, ?_⟩
        · simp [GPIOModel.gatherResults, hg2, hsys, ihr.1]
        · simp only [GPIOModel.gatherResults, hg2, hsys, if_false]
          simp [hg2m.2, ihr.2.1]
        · intro g3 hg3
          simp only [GPIOModel.gatherResults, hg2, hsys, if_false] at hg3
          rcases List.mem_cons.mp hg3 with rfl | hg3
          · exact hg2m.1
          · exact ihr.2.2.1 g3 hg3
        · intro fd2
          simp only [GPIOModel.gatherResults, hg2, hsys, if_false]
          constructor
          · intro hmem2
            obtain ⟨g4, hm4, hr4, hs4⟩ := (ihr.2.2.2 fd2).mp hmem2
            exact ⟨g4, hm4, List.mem_cons_of_mem fd hr4, hs4⟩
          · rintro ⟨g4, hm4, hr4, hs4⟩
            rcases List.mem_cons.mp hr4 with rfl | hr4
            · rw [hg2] at hm4
              cases hm4
              exact absurd hs4 hsys
            · exact (ihr.2.2.2 fd2).mpr ⟨g4, hm4, hr4, hs4⟩

theorem gatherResults_trace_shape (gpios : List GPIOModel.PollItem) (re : Int) (rs : String) :
    ∀ readyFds : List Nat,
      ∀ e ∈ (GPIOModel.gatherResults gpios true re rs readyFds).2.1,
        ∃ fd, e = Effect.lseekZero fd := by
  intro readyFds
  induction readyFds with
  | nil => intro e he; simp [GPIOModel.gatherResults] at he
  | cons fd rest ih =>
      intro e he
      unfold GPIOModel.gatherResults at he
      cases hm : GPIOModel.fdGpioMap gpios fd with
      | none => rw [hm] at he; simp at he
      | some g =>
          rw [hm] at he
          by_cases hs : g.isSysfs = true
          · simp only [hs, if_true] at he
            rcases List.mem_cons.mp he with rfl | he
            · exact ⟨fd, rfl⟩
            · exact ih e he
          · simp only [hs, if_false] at he
            exact ih e he



/-- C9: poll_multiple registers each sysfs session descriptor with the
priority/error mask and each non-sysfs (cdev) session descriptor with the
readable/normal-readable mask; when the rewinds succeed and each reported
descriptor belongs to a session with distinct descriptors, it raises
nothing, returns exactly the owning sessions of the descriptors the wait
primitive reported ready, in the reported order, rewinds a descriptor to
offset zero exactly when it is a reported-ready sysfs session descriptor,
and performs no effect that reads or consumes an event. -/
theorem claim_C9_poll_multiple (gpios : List GPIOModel.PollItem) (t : Option Rat)
    (readyFds : List Nat) (re : Int) (rs : String) :
    (∀ fd ∈ readyFds, ∃ g ∈ gpios, g.fd = fd) →
    ((gpios.map (fun g => g.fd)).Nodup) →
      (GPIOModel.registerMask true = (POLLPRI ||| POLLERR) ∧
       GPIOModel.registerMask false = (POLLIN ||| POLLRDNORM) ∧
       (∀ g ∈ gpios, Effect.registerFd g.fd (GPIOModel.registerMask g.isSysfs) ∈
         (GPIOModel.pollMultiple gpios t readyFds true re rs).2.1) ∧
       (GPIOModel.pollMultiple gpios t readyFds true re rs).2.2 = Option.none ∧
       ((GPIOModel.pollMultiple gpios t readyFds true re rs).1).map (fun g => g.fd) = readyFds ∧
       (∀ g ∈ (GPIOModel.pollMultiple gpios t readyFds true re rs).1, g ∈ gpios) ∧
       (∀ fd, Effect.lseekZero fd ∈ (GPIOModel.pollMultiple gpios t readyFds true re rs).2.1 ↔
         (fd ∈ readyFds ∧ ∃ g ∈ gpios, g.fd = fd ∧ g.isSysfs = true)) ∧
       (∀ e ∈ (GPIOModel.pollMultiple gpios t readyFds true re rs).2.1, isReadEffect e = false)) := by
  intro hcov hnd
  have hg := gatherResults_spec gpios re rs readyFds hcov
  have hshape := gatherResults_trace_shape gpios re rs readyFds
  unfold GPIOModel.pollMultiple
  refine ⟨rfl, rfl, ?_, hg.1, hg.2.1, hg.2.2.1, ?_, ?_⟩
  · intro g hgmem
    exact List.mem_append_left _
      (List.mem_map_of_mem (fun g2 => Effect.registerFd g2.fd (GPIOModel.registerMask g2.isSysfs)) hgmem)
  · intro fd
    constructor
    · intro hmem
      rcases List.mem_append.mp hmem with hreg | hrest
      · obtain ⟨g, _, hEq⟩ := List.mem_map.mp hreg
        simp at hEq
      · rcases List.mem_cons.mp hrest with hpw | hgather
        · simp at hpw
        · obtain ⟨g, hm, hr, hs⟩ := (hg.2.2.2 fd).mp hgather
          have hgm := fdGpioMap_mem gpios fd g hm
          exact ⟨hr, g, hgm.1, hgm.2, hs⟩
    · rintro ⟨hfdr, g, hgmem, hgfd, hsys⟩
      apply List.mem_append_right
      apply List.mem_cons_of_mem
      refine (hg.2.2.2 fd).mpr ⟨g, ?_, hfdr, hsys⟩
      rw [← hgfd]
      exact fdGpioMap_self gpios hnd g hgmem
  · intro e he
    rcases List.mem_append.mp he with hreg | hrest
    · obtain ⟨g, _, hEq⟩ := List.mem_map.mp hreg
      rw [← hEq]
      rfl
    · rcases List.mem_cons.mp hrest with rfl | hgather
      · rfl
      · obtain ⟨fd, rfl⟩ := hshape e hgather
        rfl

/-- C9, witness: one cdev session (descriptor 3) and one sysfs session
(descriptor 4), both reported ready. -/
theorem claim_C9_witness :
    ((∀ fd ∈ [4, 3], ∃ g ∈ [(⟨3, false⟩ : GPIOModel.PollItem), ⟨4, true⟩], g.fd = fd) ∧
      (([(⟨3, false⟩ : GPIOModel.PollItem), ⟨4, true⟩].map (fun g => g.fd)).Nodup)) ∧
    (GPIOModel.registerMask true = (POLLPRI ||| POLLERR) ∧
     GPIOModel.registerMask false = (POLLIN ||| POLLRDNORM) ∧
     (∀ g ∈ [(⟨3, false⟩ : GPIOModel.PollItem), ⟨4, true⟩],
       Effect.registerFd g.fd (GPIOModel.registerMask g.isSysfs) ∈
         (GPIOModel.pollMultiple [⟨3, false⟩, ⟨4, true⟩] (Option.some 2) [4, 3] true 0 "").2.1) ∧
     (GPIOModel.pollMultiple [⟨3, false⟩, ⟨4, true⟩] (Option.some 2) [4, 3] true 0 "").2.2 = Option.none ∧
     ((GPIOModel.pollMultiple [⟨3, false⟩, ⟨4, true⟩] (Option.some 2) [4, 3] true 0 "").1).map
        (fun g => g.fd) = [4, 3] ∧
     (∀ g ∈ (GPIOModel.pollMultiple [⟨3, false⟩, ⟨4, true⟩] (Option.some 2) [4, 3] true 0 "").1,
        g ∈ [(⟨3, false⟩ : GPIOModel.PollItem), ⟨4, true⟩]) ∧
     (∀ fd, Effect.lseekZero fd ∈
         (GPIOModel.pollMultiple [⟨3, false⟩, ⟨4, true⟩] (Option.some 2) [4, 3] true 0 "").2.1 ↔
       (fd ∈ [4, 3] ∧ ∃ g ∈ [(⟨3, false⟩ : GPIOModel.PollItem), ⟨4, true⟩],
         g.fd = fd ∧ g.isSysfs = true)) ∧
     (∀ e ∈ (GPIOModel.pollMultiple [⟨3, false⟩, ⟨4, true⟩] (Option.some 2) [4, 3] true 0 "").2.1,
        isReadEffect e = false)) :=
  ⟨⟨by decide, by decide⟩,
   claim_C9_poll_multiple [⟨3, false⟩, ⟨4, true⟩] (Option.some 2) [4, 3] 0 ""
     (by decide) (by decide)⟩

end Periphery
